import Mathlib

/-!
Verification of the cloudantic DynamoDB ODM (`src/cloudantic/schema/odm.py`).

This file gives a shallow embedding of the ODM's key derivation, table-name
computation, attribute codec, key-condition construction, table lifecycle and
class-level CRUD dispatch, and proves the specified properties about them.

Error mapping: the source signals all ODM errors as Python `ValueError`s; the
specification names them by role.  `ValueError("No partition key found")` and
`ValueError("No sort key found")` are modelled as `MissingKeyFieldError`,
`ValueError("Invalid sort key")` (the fall-through branch of the operator
dispatch in `DynamoDB.query`) as `InvalidOperatorError`, and the `ValueError`
raised by the failing tuple unpacking `from_, to_ = sk.split("-")` as
`UnpackError`.
-/

namespace Cloudantic

/-- Error taxonomy of the ODM (spec section 7), as raised by `odm.py`. -/
inductive DynaError where
  | MissingKeyFieldError
  | InvalidOperatorError
  | UnpackError
  deriving DecidableEq, Repr

/-- Python field values as inspected by key derivation (`odm.py:492-525`).
A record field that the key-derivation loops read is a string, an integer, a
boolean, `None`, or an `Enum` member carrying its symbolic name and its
underlying value. -/
inductive FieldValue where
  | str (s : String)
  | int (n : Int)
  | boolean (b : Bool)
  | pyNone
  | enumMember (symName : String) (value : FieldValue)
  deriving DecidableEq, Repr

/-- Python `str(...)` on a field value: `str(True) = "True"`, `str(False) =
"False"`, `str(None) = "None"`, integers print in decimal, and an enum member
prints as its qualified symbolic name. -/
def pyStr : FieldValue → String
  | .str s => s
  | .int n => toString n
  | .boolean b => if b then "True" else "False"
  | .pyNone => "None"
  | .enumMember symName _ => symName

/-- The value-to-key-fragment conversion shared by `pk_` and `sk_`
(`odm.py:502-505` and `odm.py:519-522`): `if isinstance(key, Enum): key =
key.value` followed by `str(key)`. -/
def keyStr (v : FieldValue) : String :=
  match v with
  | .enumMember _ value => pyStr value
  | _ => pyStr v

/-- A declared model field: its name and the `pk=True` / `sk=True` flags read
from `field.field_info.extra` (`odm.py:501`, `odm.py:518`). -/
structure FieldDecl where
  name : String
  pk : Bool
  sk : Bool
  deriving DecidableEq, Repr

/-- A `DynaModel` subclass: its class name and its fields in declaration
order (`self.__fields__.values()` iterates in declaration order). -/
structure RecordType where
  name : String
  fields : List FieldDecl
  deriving DecidableEq, Repr

/-- Current field values of an instance, as an association list from field
name to value. -/
abbrev Values := List (String × FieldValue)

/-- Python `getattr(self, field.name)`: a declared field that was never
assigned holds `None` (pydantic populates optional fields with their `None`
default), so an absent entry reads as `None`. -/
def getattr (vals : Values) (n : String) : FieldValue :=
  (vals.lookup n).getD .pyNone

/-- The `for field in self.__fields__.values()` loop of `DynaModel.pk_`
(`odm.py:500-506`): return on the first field flagged `pk`, raise
`ValueError("No partition key found")` when the loop completes. -/
def pkLoop (tname : String) (vals : Values) : List FieldDecl → Except DynaError String
  | [] => .error .MissingKeyFieldError
  | f :: rest =>
    if f.pk then .ok (tname ++ "#" ++ keyStr (getattr vals f.name))
    else pkLoop tname vals rest

/-- `DynaModel.pk_` (`odm.py:492-506`). -/
def pk_ (t : RecordType) (vals : Values) : Except DynaError String :=
  pkLoop t.name vals t.fields

/-- The accumulation loop of `DynaModel.sk_` (`odm.py:516-522`): collect the
key fragment of every field flagged `sk`, in declaration order. -/
def skLoop (vals : Values) : List FieldDecl → List String
  | [] => []
  | f :: rest =>
    if f.sk then keyStr (getattr vals f.name) :: skLoop vals rest
    else skLoop vals rest

/-- `DynaModel.sk_` (`odm.py:508-525`): raise `ValueError("No sort key
found")` when the collected list is empty, otherwise `"#".join(keys)`. -/
def sk_ (t : RecordType) (vals : Values) : Except DynaError String :=
  let keys := skLoop vals t.fields
  if keys.length = 0 then .error .MissingKeyFieldError
  else .ok (String.intercalate "#" keys)

/-- A constructed `DynaModel` instance: its type, its current field values,
and the `pk` / `sk` attributes stored by `__init__`. -/
structure RecordInstance where
  type : RecordType
  values : Values
  pk : String
  sk : String
  deriving DecidableEq, Repr

/-- `DynaModel.__init__` (`odm.py:376-385`): after pydantic validation the
constructor stores `self.pk = self.pk_` and then `self.sk = self.sk_`; an
error in `pk_` aborts construction before `sk_` runs. -/
def mkInstance (t : RecordType) (vals : Values) : Except DynaError RecordInstance :=
  match pk_ t vals, sk_ t vals with
  | .ok p, .ok s => .ok { type := t, values := vals, pk := p, sk := s }
  | .error e, _ => .error e
  | _, .error e => .error e

/-- Update one entry of an association list, appending when absent (pydantic
`Extra.allow` lets assignment create new attributes). -/
def setValue : Values → String → FieldValue → Values
  | [], n, v => [(n, v)]
  | (k, w) :: rest, n, v =>
    if k = n then (k, v) :: rest else (k, w) :: setValue rest n v

/-- Python attribute assignment on a constructed instance: it rebinds the
named field and touches nothing else; in particular the stored `pk` and `sk`
attributes are not recomputed. -/
def setField (inst : RecordInstance) (n : String) (v : FieldValue) : RecordInstance :=
  { inst with values := setValue inst.values n v }

/-- One iteration of the table-name loop (`odm.py:161-164` and
`odm.py:637-640`): `ents.append(ent.__name__)` followed by `ents.sort()`. -/
def registerStep (acc : List String) (e : String) : List String :=
  List.insertionSort (fun a b => a ≤ b) (acc ++ [e])

/-- The full loop over the registered record types.  The registry is a set,
so the iteration order is arbitrary; the argument list carries one such
order. -/
def registeredNames (regs : List String) : List String :=
  regs.foldl registerStep []

/-- `DynamoDB.__table_name__` / `DynaModel.__table_name__` (`odm.py:153-165`,
`odm.py:629-641`): `"-".join(ents)` after the sort-as-you-append loop. -/
def tableName (regs : List String) : String :=
  String.intercalate "-" (registeredNames regs)

/-- Modelled from the spec: the attribute codec's value domain.  The codec
implementation (boto3's `TypeSerializer`/`TypeDeserializer`, wrapped by
`DynamoDB.serialize`/`DynamoDB.deserialize`, `odm.py:197-219`) is not among
the repository sources, so it is modelled from spec section 4.1: the
supported scalar/composite set is strings, numbers including
arbitrary-precision decimals (here an integer mantissa with a decimal scale,
so `decimal m e` denotes `m * 10 ^ (-e)` exactly), booleans, byte strings,
null, and nested lists/maps.  Timestamps, UUIDs and enumerations reach the
codec as their string or underlying representations (the model config uses
`use_enum_values` and string-typed timestamp fields), so they are covered by
the string and number cases. -/
inductive Value where
  | str (s : String)
  | decimal (mantissa : Int) (scale : Nat)
  | boolean (b : Bool)
  | binary (bytes : List Nat)
  | null
  | list (items : List Value)
  | map (entries : List (String × Value))
  deriving Repr

/-- Modelled from the spec: the wire-level tagged attribute representation
(spec section 3, "Attribute Map": string/number/binary/boolean/list/map/null
tags). -/
inductive AttrValue where
  | S (s : String)
  | N (mantissa : Int) (scale : Nat)
  | B (bytes : List Nat)
  | BOOL (b : Bool)
  | NULL
  | L (items : List AttrValue)
  | M (attrs : List (String × AttrValue))
  deriving Repr

/-- Modelled from the spec: value serialization, total over the supported
set, tagging each scalar and descending into lists and maps; the numeric tag
carries the full decimal, losing no precision. -/
def serializeValue : Value → AttrValue
  | .str s => .S s
  | .decimal m e => .N m e
  | .boolean b => .BOOL b
  | .binary bs => .B bs
  | .null => .NULL
  | .list xs => .L (xs.attach.map (fun x => serializeValue x.1))
  | .map kvs => .M (kvs.attach.map (fun kv => (kv.1.1, serializeValue kv.1.2)))
decreasing_by
  · have h := List.sizeOf_lt_of_mem x.2
    simp only [Value.list.sizeOf_spec]
    omega
  · have h := List.sizeOf_lt_of_mem kv.2
    have h2 : sizeOf kv.1.2 < sizeOf kv.1 := by
      obtain ⟨⟨a, b⟩, hm⟩ := kv
      simp
    simp only [Value.map.sizeOf_spec]
    omega

/-- Modelled from the spec: value deserialization, total over the tagged
attribute representation, inverting each tag. -/
def deserializeValue : AttrValue → Value
  | .S s => .str s
  | .N m e => .decimal m e
  | .BOOL b => .boolean b
  | .B bs => .binary bs
  | .NULL => .null
  | .L xs => .list (xs.attach.map (fun x => deserializeValue x.1))
  | .M kvs => .map (kvs.attach.map (fun kv => (kv.1.1, deserializeValue kv.1.2)))
decreasing_by
  · have h := List.sizeOf_lt_of_mem x.2
    simp only [AttrValue.L.sizeOf_spec]
    omega
  · have h := List.sizeOf_lt_of_mem kv.2
    have h2 : sizeOf kv.1.2 < sizeOf kv.1 := by
      obtain ⟨⟨a, b⟩, hm⟩ := kv
      simp
    simp only [AttrValue.M.sizeOf_spec]
    omega

namespace DynamoDB

/-- `DynamoDB.serialize` (`odm.py:197-207`): serialize the instance's field
dictionary and return the inner map of the resulting `{"M": ...}` value. -/
def serialize (item : List (String × Value)) : List (String × AttrValue) :=
  item.map (fun kv => (kv.1, serializeValue kv.2))

/-- `DynamoDB.deserialize` (`odm.py:209-219`): wrap the item as `{"M": ...}`
and deserialize it back to the field dictionary. -/
def deserialize (data : List (String × AttrValue)) : List (String × Value) :=
  data.map (fun kv => (kv.1, deserializeValue kv.2))

end DynamoDB

/-- The sort-key operators of the `Operator` literal type (`odm.py:34`). -/
inductive QueryOp where
  | eq
  | gt
  | lt
  | ge
  | le
  | begins_with
  | between
  | contains
  deriving DecidableEq, Repr

/-- A built key-condition expression together with its expression attribute
values (each value a DynamoDB string attribute `{"S": ...}`). -/
structure KeyCondition where
  expr : String
  values : List (String × String)
  deriving DecidableEq, Repr

/-- Python `str.split` with a one-character separator, accumulator form: the
current fragment is held reversed in `acc`. -/
def pySplitAux (sep : Char) : List Char → List Char → List (List Char)
  | [], acc => [acc.reverse]
  | c :: cs, acc =>
    if c = sep then acc.reverse :: pySplitAux sep cs []
    else pySplitAux sep cs (c :: acc)

/-- Python `s.split(sep)` for a one-character separator, as used by
`sk.split("-")` in `odm.py:322`. -/
def pySplit (s : String) (sep : Char) : List String :=
  (pySplitAux sep s.data []).map List.asString

namespace DynamoDB

/-- The key-condition construction of `DynamoDB.query` (`odm.py:292-338`):
start from `pk = :pk`, then dispatch on the operator when a truthy (non-empty)
sort-key value is supplied.  `begins_with` and the five comparators append a
single `:sk` bound; `between` splits the value on a literal `"-"` and binds
`:sk0`/`:sk1`, raising when the two-way unpacking fails; every other case —
including `contains` and a missing operator — raises `ValueError("Invalid
sort key")`.  Truthy `limit`/`offset` are appended to the expression text. -/
def query (pk : String) (sk : Option String) (op : Option QueryOp)
    (limit offset : Option Nat) : Except DynaError KeyCondition :=
  let cond0 := "pk = :pk"
  let vals0 := [(":pk", pk)]
  let step : Except DynaError (String × List (String × String)) :=
    match sk with
    | none => Except.ok (cond0, vals0)
    | some s =>
      if s = "" then Except.ok (cond0, vals0)
      else
        match op with
        | some .begins_with =>
          Except.ok (cond0 ++ " AND begins_with ( sk, :sk )", vals0 ++ [(":sk", s)])
        | some .between =>
          match pySplit s '-' with
          | [lo, hi] =>
            Except.ok (cond0 ++ " AND sk BETWEEN :sk0 AND :sk1",
              vals0 ++ [(":sk0", lo), (":sk1", hi)])
          | _ => Except.error .UnpackError
        | some .eq => Except.ok (cond0 ++ " AND sk = :sk", vals0 ++ [(":sk", s)])
        | some .gt => Except.ok (cond0 ++ " AND sk > :sk", vals0 ++ [(":sk", s)])
        | some .lt => Except.ok (cond0 ++ " AND sk < :sk", vals0 ++ [(":sk", s)])
        | some .ge => Except.ok (cond0 ++ " AND sk >= :sk", vals0 ++ [(":sk", s)])
        | some .le => Except.ok (cond0 ++ " AND sk <= :sk", vals0 ++ [(":sk", s)])
        | some .contains => Except.error .InvalidOperatorError
        | none => Except.error .InvalidOperatorError
  match step with
  | .error e => .error e
  | .ok (cond, vals) =>
    let cond1 :=
      match limit with
      | some l => if l ≠ 0 then cond ++ " LIMIT " ++ toString l else cond
      | none => cond
    let cond2 :=
      match offset with
      | some o => if o ≠ 0 then cond1 ++ " OFFSET " ++ toString o else cond1
      | none => cond1
    .ok { expr := cond2, values := vals }

end DynamoDB

/-- A point read/delete request as handed to the store client: the table
name and the two key attributes. -/
structure KeyRequest where
  table : String
  pk : String
  sk : String
  deriving DecidableEq, Repr

namespace DynaModel

/-- Classmethod `DynaModel.delete` (`odm.py:539-551`): prepend
`cls.__name__ + "#"` to the supplied partition key and issue the store
delete. -/
def delete (cls : RecordType) (regs : List String) (pk sk : String) : KeyRequest :=
  { table := tableName regs, pk := cls.name ++ "#" ++ pk, sk := sk }

/-- Classmethod `DynaModel.get` (`odm.py:553-569`): prepend
`cls.__name__ + "#"` to the supplied partition key and issue the store
get. -/
def get (cls : RecordType) (regs : List String) (pk sk : String) : KeyRequest :=
  { table := tableName regs, pk := cls.name ++ "#" ++ pk, sk := sk }

/-- Classmethod `DynaModel.query` (`odm.py:571-593`): prepend
`cls.__name__ + "#"` to the supplied partition key and build the store query
(no limit/offset are forwarded). -/
def query (cls : RecordType) (pk : String) (sk : Option String)
    (op : Option QueryOp) : Except DynaError KeyCondition :=
  DynamoDB.query (cls.name ++ "#" ++ pk) sk op none none

end DynaModel

/-- A failure reported by the underlying store client, carrying the botocore
error name (for instance `"ResourceInUseException"` when the table already
exists). -/
inductive StoreErr where
  | failure (code : String)
  deriving DecidableEq, Repr

/-- The outcomes of the three store calls attempted inside the `try` block of
`DynaModel.create_table` (`odm.py:653-678`): `create_table`,
`update_time_to_live`, and the `table_exists` waiter. -/
structure ProvisionOutcome where
  createOutcome : Except StoreErr Unit
  ttlOutcome : Except StoreErr Unit
  waitOutcome : Except StoreErr Unit
  deriving Repr

/-- The effect of the `try` block body: the three store calls in order, each
aborting the block when it raises. -/
def tryBody (st : ProvisionOutcome) : Except StoreErr Unit := do
  let _ ← st.createOutcome
  let _ ← st.ttlOutcome
  st.waitOutcome

namespace DynaModel

/-- Classmethod `DynaModel.create_table` (`odm.py:643-681`): run the three
provisioning calls inside `try`; on success return the "created successfully"
message, and on any exception whatsoever return the "already exists" message
instead of propagating. -/
def create_table (regs : List String) (st : ProvisionOutcome) : String :=
  match tryBody st with
  | .ok _ => "Table " ++ tableName regs ++ " created successfully"
  | .error _ => "Table " ++ tableName regs ++ " already exists"

end DynaModel

/-! Concrete record types, mirroring the models declared in `src/main.py`
and the end-to-end scenario of spec section 8. -/

/-- The `Task` model of `src/main.py`: `user` is the partition-key
contributor, `completed` (a boolean) the only sort-key contributor. -/
def taskType : RecordType :=
  { name := "Task",
    fields := [{ name := "user", pk := true, sk := false },
               { name := "title", pk := false, sk := false },
               { name := "completed", pk := false, sk := true }] }

/-- Field values of a concrete `Task` instance. -/
def taskVals : Values :=
  [("user", .str "u1"), ("title", .str "groceries"), ("completed", .boolean false)]

/-- The constructed `Task` instance: keys computed at construction time. -/
def taskInstance : RecordInstance :=
  { type := taskType, values := taskVals, pk := "Task#u1", sk := "False" }

/-- The `Note{user: pk}` type of the spec's end-to-end scenario: a single
partition-key contributor and no sort-key contributor. -/
def noteType : RecordType :=
  { name := "Note", fields := [{ name := "user", pk := true, sk := false }] }

/-- The `Namespace` model of `src/main.py`: `user` is the partition-key
contributor and `namespace` the only sort-key contributor. -/
def namespaceType : RecordType :=
  { name := "Namespace",
    fields := [{ name := "user", pk := true, sk := false },
               { name := "namespace", pk := false, sk := true }] }

/-- A record type that declares no partition-key contributor at all. -/
def noPkType : RecordType :=
  { name := "Orphan", fields := [{ name := "title", pk := false, sk := true }] }

/-! Helper lemmas about the key-derivation loops. -/

/-- The `pk_` loop returns the first field flagged `pk`. -/
theorem pkLoop_eq_of_find_some (tname : String) (vals : Values) :
    ∀ (fs : List FieldDecl) (f : FieldDecl), fs.find? (fun fd => fd.pk) = some f →
      pkLoop tname vals fs = Except.ok (tname ++ "#" ++ keyStr (getattr vals f.name)) := by
  intro fs
  induction fs with
  | nil => intro f h; simp at h
  | cons g rest ih =>
    intro f h
    by_cases hg : g.pk
    · rw [List.find?_cons_of_pos rest hg] at h
      injection h with h
      subst h
      simp [pkLoop, hg]
    · rw [List.find?_cons_of_neg rest (by simpa using hg)] at h
      simpa [pkLoop, hg] using ih f h

/-- The `pk_` loop raises when no field is flagged `pk`. -/
theorem pkLoop_eq_of_find_none (tname : String) (vals : Values) :
    ∀ fs : List FieldDecl, fs.find? (fun fd => fd.pk) = none →
      pkLoop tname vals fs = Except.error DynaError.MissingKeyFieldError := by
  intro fs
  induction fs with
  | nil => intro _; rfl
  | cons g rest ih =>
    intro h
    rw [List.find?_eq_none] at h
    have hg : ¬g.pk := by simpa using h g (List.mem_cons_self g rest)
    have hrest : rest.find? (fun fd => fd.pk) = none := by
      rw [List.find?_eq_none]
      intro x hx
      exact h x (List.mem_cons_of_mem g hx)
    simpa [pkLoop, hg] using ih hrest

/-- The `sk_` accumulation loop collects exactly the fragments of the fields
flagged `sk`, in declaration order. -/
theorem skLoop_eq_filter_map (vals : Values) :
    ∀ fs : List FieldDecl,
      skLoop vals fs =
        (fs.filter (fun f => f.sk)).map (fun f => keyStr (getattr vals f.name)) := by
  intro fs
  induction fs with
  | nil => rfl
  | cons g rest ih =>
    by_cases hg : g.sk
    · simp [skLoop, List.filter_cons, hg, ih]
    · simp [skLoop, List.filter_cons, hg, ih]

/-- Claim C1: for every record instance of a type declaring a partition-key
contributor, the derived partition key is the type name, `"#"`, and the
string form of that (first) contributor's value, with enum members
contributing their underlying value via `keyStr`; for a type declaring no
contributor, derivation fails with `MissingKeyFieldError`. -/
theorem claim_C1_pk_derivation (t : RecordType) (vals : Values) :
    (∀ f : FieldDecl, t.fields.find? (fun fd => fd.pk) = some f →
        pk_ t vals = Except.ok (t.name ++ "#" ++ keyStr (getattr vals f.name)))
    ∧ (t.fields.find? (fun fd => fd.pk) = none →
        pk_ t vals = Except.error DynaError.MissingKeyFieldError) := by
  constructor
  · intro f h
    exact pkLoop_eq_of_find_some t.name vals t.fields f h
  · intro h
    exact pkLoop_eq_of_find_none t.name vals t.fields h

/-- Witness for claim C1 at concrete inputs: a `Task` instance derives
`pk = "Task#" ++ str(user)`, and a type with no partition-key contributor
fails. -/
theorem claim_C1_pk_derivation_witness :
    pk_ taskType taskVals = Except.ok ("Task" ++ "#" ++ keyStr (getattr taskVals "user"))
    ∧ pk_ noPkType taskVals = Except.error DynaError.MissingKeyFieldError :=
  ⟨(claim_C1_pk_derivation taskType taskVals).1
      { name := "user", pk := true, sk := false } (by rfl),
   (claim_C1_pk_derivation noPkType taskVals).2 (by rfl)⟩

/-- Enum-valued partition keys contribute the member's underlying value: a
record keyed by an enum member with symbolic name `"Status.ACTIVE"` and
underlying value `1` derives `"Job#1"`, not `"Job#Status.ACTIVE"`. -/
theorem pk_enum_uses_underlying_value :
    pk_ { name := "Job", fields := [{ name := "status", pk := true, sk := true }] }
        [("status", .enumMember "Status.ACTIVE" (.int 1))] = Except.ok "Job#1" := rfl

/-- Claim C2: for a type declaring at least one sort-key contributor the
derived sort key is the `"#"`-join of the contributors' fragments in
declaration order; for a type declaring none, derivation fails with
`MissingKeyFieldError`. -/
theorem claim_C2_sk_derivation (t : RecordType) (vals : Values) :
    (1 ≤ (t.fields.filter (fun f => f.sk)).length →
        sk_ t vals = Except.ok (String.intercalate "#"
          ((t.fields.filter (fun f => f.sk)).map (fun f => keyStr (getattr vals f.name)))))
    ∧ ((t.fields.filter (fun f => f.sk)).length = 0 →
        sk_ t vals = Except.error DynaError.MissingKeyFieldError) := by
  have hloop := skLoop_eq_filter_map vals t.fields
  constructor
  · intro h
    have hne : (skLoop vals t.fields).length ≠ 0 := by
      rw [hloop, List.length_map]
      omega
    show (if (skLoop vals t.fields).length = 0
        then (Except.error DynaError.MissingKeyFieldError : Except DynaError String)
        else Except.ok (String.intercalate "#" (skLoop vals t.fields))) = _
    rw [if_neg hne, hloop]
  · intro h
    have hz : (skLoop vals t.fields).length = 0 := by
      rw [hloop, List.length_map]
      exact h
    show (if (skLoop vals t.fields).length = 0
        then (Except.error DynaError.MissingKeyFieldError : Except DynaError String)
        else Except.ok (String.intercalate "#" (skLoop vals t.fields))) = _
    rw [if_pos hz]

/-- Witness for claim C2 at concrete inputs: the `Task` instance joins its
single contributor to `"False"`, and the contributor-free `Note` type
fails. -/
theorem claim_C2_sk_derivation_witness :
    sk_ taskType taskVals = Except.ok (String.intercalate "#"
      ((taskType.fields.filter (fun f => f.sk)).map (fun f => keyStr (getattr taskVals f.name))))
    ∧ sk_ noteType taskVals = Except.error DynaError.MissingKeyFieldError :=
  ⟨(claim_C2_sk_derivation taskType taskVals).1 (by decide),
   (claim_C2_sk_derivation noteType taskVals).2 (by rfl)⟩

/-- Counterexample to claim C8 as stated: sort-key derivation does not fail
only in the declared-but-absent case.  For a type with no sort-key
contributor it fails (where the claim requires success), and for the
`Namespace` type with the declared `namespace` value absent it succeeds with
the fragment `"None"` (where the claim requires failure). -/
theorem claim_C8_counterexample :
    (sk_ noteType [("user", .str "u1")] = Except.error DynaError.MissingKeyFieldError
      ∧ noteType.fields.filter (fun f => f.sk) = [])
    ∧ sk_ namespaceType [("user", .str "u1")] = Except.ok "None" :=
  ⟨⟨rfl, rfl⟩, rfl⟩

/-- Claim C8 as amended: sort-key derivation fails with
`MissingKeyFieldError` exactly when the type declares no sort-key
contributor; whenever at least one is declared it succeeds, an absent
(`None`) field value contributing its string form `"None"`. -/
theorem claim_C8_sk_failure_iff (t : RecordType) (vals : Values) :
    (sk_ t vals = Except.error DynaError.MissingKeyFieldError ↔
        t.fields.filter (fun f => f.sk) = [])
    ∧ (t.fields.filter (fun f => f.sk) ≠ [] →
        sk_ t vals = Except.ok (String.intercalate "#"
          ((t.fields.filter (fun f => f.sk)).map (fun f => keyStr (getattr vals f.name))))) := by
  have hloop := skLoop_eq_filter_map vals t.fields
  constructor
  · constructor
    · intro h
      by_contra hne
      have h1 : 1 ≤ (t.fields.filter (fun f => f.sk)).length := by
        cases hfl : t.fields.filter (fun f => f.sk) with
        | nil => exact absurd hfl hne
        | cons a l => simp [hfl]
      have := (claim_C2_sk_derivation t vals).1 h1
      rw [this] at h
      exact Except.noConfusion h
    · intro h
      apply (claim_C2_sk_derivation t vals).2
      rw [h]
      rfl
  · intro hne
    apply (claim_C2_sk_derivation t vals).1
    cases hfl : t.fields.filter (fun f => f.sk) with
    | nil => exact absurd hfl hne
    | cons a l => simp [hfl]

/-- Witness for claim C8 as amended, at the `Namespace` type with the
declared sort-key value absent: derivation succeeds (the failure ↔ condition
is settled negatively) and produces `"None"`. -/
theorem claim_C8_sk_failure_iff_witness :
    (sk_ namespaceType [("user", .str "u1")] = Except.error DynaError.MissingKeyFieldError ↔
        namespaceType.fields.filter (fun f => f.sk) = [])
    ∧ (namespaceType.fields.filter (fun f => f.sk) ≠ [] →
        sk_ namespaceType [("user", .str "u1")] = Except.ok (String.intercalate "#"
          ((namespaceType.fields.filter (fun f => f.sk)).map
            (fun f => keyStr (getattr [("user", .str "u1")] f.name))))) :=
  claim_C8_sk_failure_iff namespaceType [("user", .str "u1")]

/-- Claim C9: keys are computed once at construction and stored; mutating any
field afterwards leaves the stored `pk` and `sk` unchanged, and the stored
keys are exactly the construction-time derivations. -/
theorem claim_C9_keys_frozen (t : RecordType) (vals : Values) (inst : RecordInstance)
    (n : String) (v : FieldValue) (h : mkInstance t vals = Except.ok inst) :
    (setField inst n v).pk = inst.pk
    ∧ (setField inst n v).sk = inst.sk
    ∧ pk_ t vals = Except.ok inst.pk
    ∧ sk_ t vals = Except.ok inst.sk := by
  unfold mkInstance at h
  split at h
  · rename_i p s hp hs
    injection h with h
    subst h
    exact ⟨rfl, rfl, hp, hs⟩
  · exact Except.noConfusion h
  · exact Except.noConfusion h

/-- Witness for claim C9: mutating the key-contributing `user` field of a
constructed `Task` leaves the stored keys `"Task#u1"` / `"False"` intact. -/
theorem claim_C9_keys_frozen_witness :
    (setField taskInstance "user" (.str "u2")).pk = taskInstance.pk
    ∧ (setField taskInstance "user" (.str "u2")).sk = taskInstance.sk
    ∧ pk_ taskType taskVals = Except.ok taskInstance.pk
    ∧ sk_ taskType taskVals = Except.ok taskInstance.sk :=
  claim_C9_keys_frozen taskType taskVals taskInstance "user" (.str "u2") (by rfl)

/-- The known pitfall behind claim C9: after the mutation, recomputing the
partition key over the new field values gives `"Task#u2"`, while the stored
key remains `"Task#u1"`. -/
theorem setField_key_goes_stale :
    pk_ taskType (setField taskInstance "user" (.str "u2")).values = Except.ok "Task#u2"
    ∧ (setField taskInstance "user" (.str "u2")).pk = "Task#u1" :=
  ⟨rfl, rfl⟩

/-! Table-name computation. -/

/-- The sort-as-you-append loop permutes the registered names. -/
theorem registeredNames_perm :
    ∀ (regs acc : List String), (regs.foldl registerStep acc).Perm (acc ++ regs) := by
  intro regs
  induction regs with
  | nil => intro acc; simp
  | cons e rest ih =>
    intro acc
    have h1 : (rest.foldl registerStep (registerStep acc e)).Perm (registerStep acc e ++ rest) :=
      ih (registerStep acc e)
    have h2 : (registerStep acc e).Perm (acc ++ [e]) :=
      List.perm_insertionSort (fun a b => a ≤ b) (acc ++ [e])
    have h3 : (registerStep acc e ++ rest).Perm ((acc ++ [e]) ++ rest) :=
      List.Perm.append_right rest h2
    have h4 : (acc ++ [e]) ++ rest = acc ++ e :: rest := by
      rw [List.append_assoc]
      rfl
    simpa [List.foldl_cons, h4] using h1.trans h3

/-- The sort-as-you-append loop leaves a sorted list whenever it starts from
one (in particular from the empty list). -/
theorem registeredNames_sorted :
    ∀ (regs acc : List String), acc.Sorted (fun a b => a ≤ b) →
      (regs.foldl registerStep acc).Sorted (fun a b => a ≤ b) := by
  intro regs
  induction regs with
  | nil => intro acc h; simpa using h
  | cons e rest ih =>
    intro acc _
    exact ih (registerStep acc e)
      (List.sorted_insertionSort (fun a b => a ≤ b) (acc ++ [e]))

/-- Claim C3: the computed table name is the alphabetically sorted,
`"-"`-joined list of the registered type names, and it is invariant under the
order of registration. -/
theorem claim_C3_table_name (regs regs2 : List String) (hperm : regs.Perm regs2) :
    tableName regs =
      String.intercalate "-" (List.insertionSort (fun a b : String => a ≤ b) regs)
    ∧ tableName regs = tableName regs2 := by
  have sortedEq : ∀ l : List String,
      registeredNames l = List.insertionSort (fun a b : String => a ≤ b) l := by
    intro l
    have hp : (registeredNames l).Perm (List.insertionSort (fun a b : String => a ≤ b) l) :=
      (registeredNames_perm l []).trans
        (List.perm_insertionSort (fun a b => a ≤ b) l).symm
    have hs1 := registeredNames_sorted l [] List.sorted_nil
    have hs2 := List.sorted_insertionSort (fun a b : String => a ≤ b) l
    exact List.eq_of_perm_of_sorted hp hs1 hs2
  have insEq : List.insertionSort (fun a b : String => a ≤ b) regs =
      List.insertionSort (fun a b : String => a ≤ b) regs2 := by
    have hp : (List.insertionSort (fun a b : String => a ≤ b) regs).Perm
        (List.insertionSort (fun a b : String => a ≤ b) regs2) :=
      ((List.perm_insertionSort (fun a b => a ≤ b) regs).trans hperm).trans
        (List.perm_insertionSort (fun a b => a ≤ b) regs2).symm
    have hs1 := List.sorted_insertionSort (fun a b : String => a ≤ b) regs
    have hs2 := List.sorted_insertionSort (fun a b : String => a ≤ b) regs2
    exact List.eq_of_perm_of_sorted hp hs1 hs2
  refine ⟨by rw [tableName, sortedEq], ?_⟩
  rw [tableName, tableName, sortedEq, sortedEq, insEq]

/-- Witness for claim C3 at the spec's end-to-end scenario: registering
`Task` then `Note`, or `Note` then `Task`, yields the same sorted-join
table name. -/
theorem claim_C3_table_name_witness :
    tableName ["Task", "Note"] =
      String.intercalate "-" (List.insertionSort (fun a b : String => a ≤ b) ["Task", "Note"])
    ∧ tableName ["Task", "Note"] = tableName ["Note", "Task"] :=
  claim_C3_table_name ["Task", "Note"] ["Note", "Task"]
    (List.Perm.swap "Note" "Task" [])

/-! Codec round-trip. -/

/-- Unfolding `serializeValue` on a list of items. -/
theorem serializeValue_list (xs : List Value) :
    serializeValue (.list xs) = .L (xs.map serializeValue) := by
  rw [serializeValue]
  exact congrArg AttrValue.L (List.attach_map_val xs serializeValue)

/-- Unfolding `serializeValue` on a map of entries. -/
theorem serializeValue_map (kvs : List (String × Value)) :
    serializeValue (.map kvs) = .M (kvs.map (fun kv => (kv.1, serializeValue kv.2))) := by
  rw [serializeValue]
  exact congrArg AttrValue.M
    (List.attach_map_val kvs (fun kv => (kv.1, serializeValue kv.2)))

/-- Unfolding `deserializeValue` on a list of items. -/
theorem deserializeValue_list (xs : List AttrValue) :
    deserializeValue (.L xs) = .list (xs.map deserializeValue) := by
  rw [deserializeValue]
  exact congrArg Value.list (List.attach_map_val xs deserializeValue)

/-- Unfolding `deserializeValue` on a map of entries. -/
theorem deserializeValue_map (kvs : List (String × AttrValue)) :
    deserializeValue (.M kvs) = .map (kvs.map (fun kv => (kv.1, deserializeValue kv.2))) := by
  rw [deserializeValue]
  exact congrArg Value.map
    (List.attach_map_val kvs (fun kv => (kv.1, deserializeValue kv.2)))

/-- Deserialization inverts serialization on every supported value, nested
lists and maps included, and a decimal comes back with its exact mantissa and
scale. -/
theorem roundtripValue (v : Value) : deserializeValue (serializeValue v) = v := by
  match v with
  | .str s => rw [serializeValue, deserializeValue]
  | .decimal m e => rw [serializeValue, deserializeValue]
  | .boolean b => rw [serializeValue, deserializeValue]
  | .binary bs => rw [serializeValue, deserializeValue]
  | .null => rw [serializeValue, deserializeValue]
  | .list xs =>
    have ih : ∀ x ∈ xs, deserializeValue (serializeValue x) = x :=
      fun x _ => roundtripValue x
    rw [serializeValue_list, deserializeValue_list, List.map_map]
    have hmap : xs.map (deserializeValue ∘ serializeValue) = xs.map id :=
      List.map_congr_left (fun a ha => by
        simp only [Function.comp_apply, id_eq, ih a ha])
    rw [hmap, List.map_id]
  | .map kvs =>
    have ih : ∀ kv ∈ kvs, deserializeValue (serializeValue (Prod.snd kv)) = kv.2 :=
      fun kv _ => roundtripValue kv.2
    rw [serializeValue_map, deserializeValue_map, List.map_map]
    have hmap : kvs.map ((fun kv => (kv.1, deserializeValue kv.2)) ∘
        (fun kv => (kv.1, serializeValue kv.2))) = kvs.map id :=
      List.map_congr_left (fun a ha => by
        simp only [Function.comp_apply, id_eq, ih a ha])
    rw [hmap, List.map_id]
termination_by sizeOf v
decreasing_by
  · have h := List.sizeOf_lt_of_mem ‹x ∈ xs›
    simp only [Value.list.sizeOf_spec]
    omega
  · have h := List.sizeOf_lt_of_mem ‹kv ∈ kvs›
    have h2 : sizeOf kv.2 < sizeOf kv := by
      obtain ⟨a, b⟩ := kv
      simp
    simp only [Value.map.sizeOf_spec]
    omega

/-- Claim C4: for every record item over the supported scalar/composite set,
deserializing the result of serializing it yields the original item, with no
precision loss for decimal values. -/
theorem claim_C4_codec_roundtrip (item : List (String × Value)) :
    DynamoDB.deserialize (DynamoDB.serialize item) = item := by
  rw [DynamoDB.serialize, DynamoDB.deserialize, List.map_map]
  have hmap : item.map ((fun kv => (kv.1, deserializeValue kv.2)) ∘
      (fun kv => (kv.1, serializeValue kv.2))) = item.map id :=
    List.map_congr_left (fun a _ => by
      simp only [Function.comp_apply, id_eq, roundtripValue a.2])
  rw [hmap, List.map_id]

/-! Python split, and the key-condition construction. -/

/-- A separator-free chunk is returned whole (appended to the pending
accumulator). -/
theorem pySplitAux_of_not_mem (sep : Char) :
    ∀ (l acc : List Char), sep ∉ l → pySplitAux sep l acc = [acc.reverse ++ l] := by
  intro l
  induction l with
  | nil => intro acc _; simp [pySplitAux]
  | cons c cs ih =>
    intro acc h
    have hc : ¬c = sep := by
      intro e
      exact h (by rw [← e]; exact List.mem_cons_self c cs)
    have hcs : sep ∉ cs := fun m => h (List.mem_cons_of_mem c m)
    rw [pySplitAux, if_neg hc, ih (c :: acc) hcs, List.reverse_cons, List.append_assoc]
    rfl

/-- Splitting at the first separator: the chunk before it is emitted and the
remainder is split afresh. -/
theorem pySplitAux_append_sep (sep : Char) :
    ∀ (lo rest acc : List Char), sep ∉ lo →
      pySplitAux sep (lo ++ sep :: rest) acc =
        (acc.reverse ++ lo) :: pySplitAux sep rest [] := by
  intro lo
  induction lo with
  | nil => intro rest acc _; simp [pySplitAux]
  | cons c cs ih =>
    intro rest acc h
    have hc : ¬c = sep := by
      intro e
      exact h (by rw [← e]; exact List.mem_cons_self c cs)
    have hcs : sep ∉ cs := fun m => h (List.mem_cons_of_mem c m)
    rw [List.cons_append, pySplitAux, if_neg hc, ih rest (c :: acc) hcs,
      List.reverse_cons, List.append_assoc]
    rfl

/-- Python `s.split("-")` on a string with no `"-"` yields the whole string as
the single fragment. -/
theorem pySplit_no_sep (s : String) (sep : Char) (h : sep ∉ s.data) :
    pySplit s sep = [s] := by
  rw [pySplit, pySplitAux_of_not_mem sep s.data [] h]
  rfl

/-- Python `s.split("-")` on `lo ++ "-" ++ hi` with dash-free `lo` and `hi`
yields exactly the two fragments. -/
theorem pySplit_two (lo hi : String) (hlo : ('-' : Char) ∉ lo.data)
    (hhi : ('-' : Char) ∉ hi.data) : pySplit (lo ++ "-" ++ hi) '-' = [lo, hi] := by
  have hdata : (lo ++ "-" ++ hi).data = lo.data ++ '-' :: hi.data := by
    rw [String.data_append, String.data_append, List.append_assoc]
    rfl
  rw [pySplit, hdata, pySplitAux_append_sep '-' lo.data hi.data [] hlo,
    pySplitAux_of_not_mem '-' hi.data [] hhi]
  rfl

/-- A string having `"-"` in the middle is nonempty. -/
theorem append_dash_ne_empty (lo hi : String) : lo ++ "-" ++ hi ≠ "" := by
  intro h
  have hdata : (lo ++ "-" ++ hi).data = [] := by rw [h]
  rw [String.data_append, String.data_append] at hdata
  simp at hdata

/-- The `between` branch of the key-condition construction, when the split
yields exactly two fragments. -/
theorem query_between_ok (pk s lo hi : String) (hs : ¬s = "")
    (hsplit : pySplit s '-' = [lo, hi]) :
    DynamoDB.query pk (some s) (some .between) none none =
      Except.ok { expr := "pk = :pk AND sk BETWEEN :sk0 AND :sk1",
                  values := [(":pk", pk), (":sk0", lo), (":sk1", hi)] } := by
  rw [DynamoDB.query]
  simp only []
  rw [if_neg hs, hsplit]
  rfl

/-- The `between` branch of the key-condition construction, when the value
holds no separator: the two-way unpacking of the one-fragment split raises. -/
theorem query_between_err (pk s : String) (hs : ¬s = "")
    (hsplit : pySplit s '-' = [s]) :
    DynamoDB.query pk (some s) (some .between) none none =
      Except.error DynaError.UnpackError := by
  rw [DynamoDB.query]
  simp only []
  rw [if_neg hs, hsplit]

/-- Claim C5: with the `between` operator the sort-key value is split on a
literal `"-"` into the two bounds of `sk BETWEEN :sk0 AND :sk1` (the part
before the separator is the lower bound and the part after the upper), and a
value containing no `"-"` fails deterministically with the unpacking error
rather than building a partial bound. -/
theorem claim_C5_between (pk lo hi s : String) (hlo : ('-' : Char) ∉ lo.data)
    (hhi : ('-' : Char) ∉ hi.data) (hs : s ≠ "") (hnos : ('-' : Char) ∉ s.data) :
    DynamoDB.query pk (some (lo ++ "-" ++ hi)) (some .between) none none =
      Except.ok { expr := "pk = :pk AND sk BETWEEN :sk0 AND :sk1",
                  values := [(":pk", pk), (":sk0", lo), (":sk1", hi)] }
    ∧ DynamoDB.query pk (some s) (some .between) none none =
        Except.error DynaError.UnpackError :=
  ⟨query_between_ok pk (lo ++ "-" ++ hi) lo hi (append_dash_ne_empty lo hi)
      (pySplit_two lo hi hlo hhi),
   query_between_err pk s hs (pySplit_no_sep s '-' hnos)⟩

/-- Witness for claim C5 at the spec's example: `query(pk, "A-Z")` binds the
lower bound `"A"` and the upper bound `"Z"`, and `query(pk, "AZ")` fails. -/
theorem claim_C5_between_witness :
    DynamoDB.query "Task#u1" (some ("A" ++ "-" ++ "Z")) (some .between) none none =
      Except.ok { expr := "pk = :pk AND sk BETWEEN :sk0 AND :sk1",
                  values := [(":pk", "Task#u1"), (":sk0", "A"), (":sk1", "Z")] }
    ∧ DynamoDB.query "Task#u1" (some "AZ") (some .between) none none =
        Except.error DynaError.UnpackError :=
  claim_C5_between "Task#u1" "A" "Z" "AZ" (by decide) (by decide) (by decide) (by decide)

/-- Counterexample to claim C6 as stated: a query with a (nonempty) sort-key
value and the `contains` operator does not pass through without a condition —
it raises the invalid-operator error, even though `contains` belongs to the
declared `Operator` set. -/
theorem claim_C6_counterexample :
    DynamoDB.query "User#u1" (some "en") (some QueryOp.contains) none none =
      Except.error DynaError.InvalidOperatorError
    ∧ DynamoDB.query "User#u1" (some "en") (some QueryOp.contains) none none ≠
        Except.ok { expr := "pk = :pk", values := [(":pk", "User#u1")] } :=
  ⟨rfl, fun h => Except.noConfusion h⟩

/-- Claim C6 as amended: with a nonempty sort-key value, the `contains`
operator is rejected with the invalid-operator error exactly as a missing
operator is; the operator values reported as invalid are precisely `contains`
and `None`, every other declared operator building (or, for a separator-free
`between` value, failing the unpacking of) a condition. -/
theorem claim_C6_contains_rejected (pk s : String) (lim off : Option Nat) (hs : s ≠ "") :
    DynamoDB.query pk (some s) (some QueryOp.contains) lim off =
      Except.error DynaError.InvalidOperatorError
    ∧ ∀ op : Option QueryOp,
        (DynamoDB.query pk (some s) op lim off = Except.error DynaError.InvalidOperatorError ↔
          (op = some QueryOp.contains ∨ op = none)) := by
  constructor
  · rw [DynamoDB.query]
    simp only []
    rw [if_neg hs]
  · intro op
    cases op with
    | none => simp [DynamoDB.query, hs]
    | some o =>
      cases o with
      | between =>
        rw [DynamoDB.query]
        simp only []
        rw [if_neg hs]
        constructor
        · intro h
          split at h
          · rename_i e heq
            injection h with h
            subst h
            split at heq
            · exact Except.noConfusion heq
            · injection heq with heq
              exact DynaError.noConfusion heq
          · exact Except.noConfusion h
        · intro h
          rcases h with h | h <;> simp at h
      | eq => simp [DynamoDB.query, hs]
      | gt => simp [DynamoDB.query, hs]
      | lt => simp [DynamoDB.query, hs]
      | ge => simp [DynamoDB.query, hs]
      | le => simp [DynamoDB.query, hs]
      | begins_with => simp [DynamoDB.query, hs]
      | contains => simp [DynamoDB.query, hs]

/-- Witness for claim C6 as amended, at a concrete nonempty sort-key value:
`contains` yields the invalid-operator error, and the `=` operator does
not. -/
theorem claim_C6_contains_rejected_witness :
    DynamoDB.query "User#u1" (some "en") (some QueryOp.contains) none none =
      Except.error DynaError.InvalidOperatorError
    ∧ ¬(DynamoDB.query "User#u1" (some "en") (some QueryOp.eq) none none =
        Except.error DynaError.InvalidOperatorError) := by
  have h := claim_C6_contains_rejected "User#u1" "en" none none (by decide)
  refine ⟨h.1, ?_⟩
  intro habs
  rcases (h.2 (some QueryOp.eq)).1 habs with hc | hc <;> simp at hc

/-! Class-level dispatch and the partition-key prefix. -/

/-- Every successfully built key condition binds `:pk` to the partition key
handed to the query builder. -/
theorem query_pk_value (pk : String) (sk : Option String) (op : Option QueryOp)
    (lim off : Option Nat) (c : KeyCondition)
    (h : DynamoDB.query pk sk op lim off = Except.ok c) :
    (":pk", pk) ∈ c.values := by
  rw [DynamoDB.query.eq_def] at h
  simp only [] at h
  split at h
  · exact Except.noConfusion h
  · rename_i cond vals heq
    injection h with h
    subst h
    show (":pk", pk) ∈ vals
    repeat' split at heq
    all_goals
      first
        | exact Except.noConfusion heq
        | (injection heq with heq; injection heq with h1 h2; subst h2;
            exact List.mem_cons_self _ _)

/-- Claim C10: the class-level `get`, `delete` and `query` operations all
prepend `"<TypeName>#"` to the caller's partition-key string before issuing
the store operation. -/
theorem claim_C10_key_prefixing (cls : RecordType) (regs : List String)
    (pk sk : String) (skq : Option String) (op : Option QueryOp) :
    (DynaModel.get cls regs pk sk).pk = cls.name ++ "#" ++ pk
    ∧ (DynaModel.delete cls regs pk sk).pk = cls.name ++ "#" ++ pk
    ∧ ∀ c : KeyCondition, DynaModel.query cls pk skq op = Except.ok c →
        (":pk", cls.name ++ "#" ++ pk) ∈ c.values := by
  refine ⟨rfl, rfl, ?_⟩
  intro c h
  exact query_pk_value (cls.name ++ "#" ++ pk) skq op none none c h

/-- Witness for claim C10 at concrete inputs: a `Task` get/delete/query for
raw key `"u1"` reaches the store with partition key `"Task#u1"`. -/
theorem claim_C10_key_prefixing_witness :
    (DynaModel.get taskType ["Task"] "u1" "False").pk = "Task" ++ "#" ++ "u1"
    ∧ (DynaModel.delete taskType ["Task"] "u1" "False").pk = "Task" ++ "#" ++ "u1"
    ∧ (":pk", "Task" ++ "#" ++ "u1") ∈
        ({ expr := "pk = :pk", values := [(":pk", "Task#u1")] } : KeyCondition).values :=
  ⟨(claim_C10_key_prefixing taskType ["Task"] "u1" "False" none none).1,
   (claim_C10_key_prefixing taskType ["Task"] "u1" "False" none none).2.1,
   (claim_C10_key_prefixing taskType ["Task"] "u1" "False" none none).2.2
     { expr := "pk = :pk", values := [(":pk", "Task#u1")] } (by rfl)⟩

/-! Table lifecycle. -/

/-- Claim C7: `create_table` never propagates a store failure — whatever the
three provisioning calls do, it returns one of the two status strings, and
whenever any of them fails (the table already existing included) it returns
the non-error "already exists" message. -/
theorem claim_C7_create_table (regs : List String) (st : ProvisionOutcome) :
    (∀ e : StoreErr, tryBody st = Except.error e →
        DynaModel.create_table regs st = "Table " ++ tableName regs ++ " already exists")
    ∧ (DynaModel.create_table regs st = "Table " ++ tableName regs ++ " created successfully"
        ∨ DynaModel.create_table regs st = "Table " ++ tableName regs ++ " already exists") := by
  constructor
  · intro e he
    rw [DynaModel.create_table, he]
  · rw [DynaModel.create_table]
    cases tryBody st with
    | ok u => exact Or.inl rfl
    | error e => exact Or.inr rfl

/-- Witness for claim C7: when the store's `create_table` call raises
`ResourceInUseException` (the table already exists), the classmethod reports
the "already exists" status string rather than an error. -/
theorem claim_C7_create_table_witness :
    DynaModel.create_table ["Task"]
      { createOutcome := Except.error (StoreErr.failure "ResourceInUseException"),
        ttlOutcome := Except.ok (), waitOutcome := Except.ok () } =
      "Table " ++ tableName ["Task"] ++ " already exists" :=
  (claim_C7_create_table ["Task"]
    { createOutcome := Except.error (StoreErr.failure "ResourceInUseException"),
      ttlOutcome := Except.ok (), waitOutcome := Except.ok () }).1
    (StoreErr.failure "ResourceInUseException") (by rfl)

end Cloudantic
